import Mathlib

/-!
Verification development for the SnapScript repository.

The definitions below are a shallow embedding of the Python sources under
`src/snapscript/`.  Times inside the video are represented the way
`scenedetect.FrameTimecode` represents them: as a frame index (a natural
number) at a fixed frame rate; seconds are represented as rationals.
Fallible external calls (frame decoding, `cv2.imwrite`, `ffmpeg`,
`os.path.isdir`) are modelled by boolean oracles supplied in small
environment records.
-/

namespace SnapScript

/-! ### Python primitives -/

/-- Python's builtin `round`: round half to even (banker's rounding),
used by `scenedetect.FrameTimecode` to convert seconds to frames. -/
def pyRound (q : ℚ) : ℤ :=
  let f := ⌊q⌋
  let r := q - (f : ℚ)
  if r < 1/2 then f
  else if 1/2 < r then f + 1
  else if f % 2 = 0 then f else f + 1

/-- Python's builtin `int()` on a number: truncation toward zero. -/
def pyInt (q : ℚ) : ℤ :=
  if 0 ≤ q then ⌊q⌋ else -⌊-q⌋

/-- Python's `str.strip()`: drop leading and trailing whitespace. -/
def pyStrip (s : String) : String :=
  ⟨((s.data.dropWhile Char.isWhitespace).reverse.dropWhile Char.isWhitespace).reverse⟩

/-- Python's `str.replace('\n', ' ')`: replace every newline by a space
(for a one-character pattern this is a character map). -/
def pyReplaceNL (s : String) : String :=
  ⟨s.data.map (fun c => if c = '\n' then ' ' else c)⟩

/-! ### Timecodes and scenes

`FrameTimecode` arithmetic in `scenedetect` operates on the stored frame
index: `+`/`-` add or subtract frames (clamping at 0), comparisons compare
frame indices, `get_frames()` returns the index and `get_seconds()` divides
by the frame rate.  A frame index is a `ℕ`, so `Nat` subtraction models the
clamp at frame 0. -/

/-- Embeds `FrameTimecode(seconds, fps)._seconds_to_frames`: `round(seconds * framerate)`. -/
def secondsToFrames (sec fps : ℚ) : ℤ :=
  pyRound (sec * fps)

/-- Embeds `FrameTimecode.get_seconds()`: frame index divided by the frame rate. -/
def framesToSeconds (frames : ℕ) (fps : ℚ) : ℚ :=
  (frames : ℚ) / fps

/-- One detected scene `(start_time, end_time)` from
`scene_manager.get_scene_list()`, as frame indices (`end` is exclusive). -/
structure Scene where
  start : ℕ
  stop : ℕ
  deriving DecidableEq, Repr

/-! ### Snapshot extraction (`VideoProcessor.extract_snapshots`) -/

/-- The capture-time computation at the top of the per-scene loop of
`VideoProcessor.extract_snapshots` (video_processor.py lines 84-97):
`snapshot_time = start_time + offset`; if `snapshot_time >= end_time` then
use `end_time - 1` when `end_time.get_frames() > start_time.get_frames()`,
else `start_time`. -/
def snapshot_time_for (off : ℕ) (s : Scene) : ℕ :=
  let snapshot_time := s.start + off
  if snapshot_time ≥ s.stop then
    if s.stop > s.start then s.stop - 1 else s.start
  else snapshot_time

/-- A snapshot event appended to `snapshot_details`: the recorded capture
time (a frame index), the 1-based scene ordinal and whether the fallback
(one frame earlier) decode produced the image. The filename stored in the
Python tuple is recovered by `snapshotFilename`. -/
structure SnapEvent where
  ordinal : ℕ
  time : ℕ
  fallback : Bool
  deriving DecidableEq, Repr

/-- The filename written for a snapshot event: `f"{i + 1}.jpg"` on the
primary path, `f"{i + 1}_fallback.jpg"` on the fallback path. -/
def snapshotFilename (e : SnapEvent) : String :=
  toString e.ordinal ++ (if e.fallback then "_fallback.jpg" else ".jpg")

/-- Oracles for the external effects inside the per-scene loop:
`read t` is whether `video.seek(t); video.read()` yields a frame,
`write p` is whether `cv2.imwrite(p, frame)` succeeds, and `raises i`
is whether the `try` block of scene `i` raises an exception. -/
structure ExtractEnv where
  read : ℕ → Bool
  write : String → Bool
  raises : ℕ → Bool

/-- The body of the per-scene loop of `VideoProcessor.extract_snapshots`
(video_processor.py lines 83-140) for scene index `i` (0-based): compute
the capture time, try to decode there; on success write `{i+1}.jpg`; on
decode failure retry one frame earlier when the capture time is not frame 0
and write `{i+1}_fallback.jpg`; the recorded event keeps `snapshot_time`
in both cases.  `none` means no tuple was appended for this scene. -/
def processScene (env : ExtractEnv) (off : ℕ) (i : ℕ) (s : Scene) : Option SnapEvent :=
  if env.raises i then none
  else if env.read (snapshot_time_for off s) then
    if env.write (snapshotFilename ⟨i + 1, snapshot_time_for off s, false⟩) then
      some ⟨i + 1, snapshot_time_for off s, false⟩
    else none
  else if 0 < snapshot_time_for off s then
    if env.read (snapshot_time_for off s - 1) then
      if env.write (snapshotFilename ⟨i + 1, snapshot_time_for off s, true⟩) then
        some ⟨i + 1, snapshot_time_for off s, true⟩
      else none
    else none
  else none

/-- The enumerated loop of `extract_snapshots`, with the running
`enumerate` index made explicit. -/
def extractFrom (env : ExtractEnv) (off : ℕ) : ℕ → List Scene → List SnapEvent
  | _, [] => []
  | i, s :: rest =>
    match processScene env off i s with
    | some e => e :: extractFrom env off (i + 1) rest
    | none => extractFrom env off (i + 1) rest

/-- Embeds `VideoProcessor.extract_snapshots`: guard for an empty scene list, then
the enumerated loop starting at index 0. -/
def extract_snapshots (env : ExtractEnv) (off : ℕ) (scenes : List Scene) : List SnapEvent :=
  if scenes.isEmpty then [] else extractFrom env off 0 scenes

/-! ### Claim C1 -/

/-- Claim C1: for every scene `(start, stop)` and every stabilization
offset `sec ≥ 0` (at frame rate `fps > 0`), with `desired = start` plus the
offset converted to frames: if `desired < stop` the chosen capture time is
`desired`; otherwise, if the scene has more than one frame the chosen
capture time is `stop - 1`, and for a single-frame scene it is `start`. -/
theorem c1_capture_time_policy (sec fps : ℚ) (hsec : 0 ≤ sec) (hfps : 0 < fps)
    (s : Scene) :
    (s.start + (secondsToFrames sec fps).toNat < s.stop →
      snapshot_time_for (secondsToFrames sec fps).toNat s
        = s.start + (secondsToFrames sec fps).toNat) ∧
    (s.stop ≤ s.start + (secondsToFrames sec fps).toNat → s.start < s.stop →
      snapshot_time_for (secondsToFrames sec fps).toNat s = s.stop - 1) ∧
    (s.stop ≤ s.start + (secondsToFrames sec fps).toNat → s.stop = s.start + 1 →
      snapshot_time_for (secondsToFrames sec fps).toNat s = s.start) := by
  unfold snapshot_time_for
  refine ⟨fun h => ?_, fun h h2 => ?_, fun h h2 => ?_⟩ <;> simp only []
  · rw [if_neg]
    omega
  · rw [if_pos h, if_pos h2]
  · rw [if_pos h, if_pos (by omega)]
    omega

/-- Witness for C1: offset 0.5 s at 25 fps on the scene frames [0, 250)
converts to 12 frames (12.5 rounds to even) and fits, so the capture time
is frame 12; and on the short scene [0, 3) the offset does not fit and the
capture time is frame 2 = stop - 1. -/
theorem c1_capture_time_policy_witness :
    (0 : ℚ) ≤ 1/2 ∧ (0 : ℚ) < 25 ∧
    ((Scene.mk 0 250).start + (secondsToFrames (1/2) 25).toNat < (Scene.mk 0 250).stop →
      snapshot_time_for (secondsToFrames (1/2) 25).toNat (Scene.mk 0 250)
        = (Scene.mk 0 250).start + (secondsToFrames (1/2) 25).toNat) ∧
    ((Scene.mk 0 3).stop ≤ (Scene.mk 0 3).start + (secondsToFrames (1/2) 25).toNat →
      (Scene.mk 0 3).start < (Scene.mk 0 3).stop →
      snapshot_time_for (secondsToFrames (1/2) 25).toNat (Scene.mk 0 3)
        = (Scene.mk 0 3).stop - 1) :=
  ⟨by norm_num, by norm_num,
    (c1_capture_time_policy (1/2) 25 (by norm_num) (by norm_num) (Scene.mk 0 250)).1,
    (c1_capture_time_policy (1/2) 25 (by norm_num) (by norm_num) (Scene.mk 0 3)).2.1⟩

/-! ### Claim C3: shape of the emitted snapshot list -/

/-- A scene's loop body only ever emits the event with ordinal `i + 1`. -/
theorem processScene_ordinal {env : ExtractEnv} {off i : ℕ} {s : Scene}
    {e : SnapEvent} (h : processScene env off i s = some e) :
    e.ordinal = i + 1 := by
  unfold processScene at h
  split_ifs at h
  all_goals try cases h
  all_goals rfl

/-- The enumerated loop emits at most one event per scene. -/
theorem extractFrom_length (env : ExtractEnv) (off : ℕ) :
    ∀ (i : ℕ) (l : List Scene), (extractFrom env off i l).length ≤ l.length := by
  intro i l
  induction l generalizing i with
  | nil => simp [extractFrom]
  | cons s rest ih =>
    rw [extractFrom]
    cases h : processScene env off i s with
    | some e => simpa using ih (i + 1)
    | none => exact Nat.le_succ_of_le (ih (i + 1))

/-- Ordinals of events emitted by the loop started at index `i` lie in
`[i + 1, i + length]`. -/
theorem extractFrom_ordinal_bounds (env : ExtractEnv) (off : ℕ) :
    ∀ (i : ℕ) (l : List Scene) (e : SnapEvent), e ∈ extractFrom env off i l →
      i + 1 ≤ e.ordinal ∧ e.ordinal ≤ i + l.length := by
  intro i l
  induction l generalizing i with
  | nil => simp [extractFrom]
  | cons s rest ih =>
    intro e he
    rw [extractFrom] at he
    cases h : processScene env off i s with
    | some e0 =>
      rw [h] at he
      rcases List.mem_cons.mp he with rfl | hmem
      · have := processScene_ordinal h
        simp [this]
      · have := ih (i + 1) e hmem
        simp only [List.length_cons]
        omega
    | none =>
      rw [h] at he
      have := ih (i + 1) e he
      simp only [List.length_cons]
      omega

/-- Ordinals are pairwise strictly increasing along the emitted list. -/
theorem extractFrom_pairwise (env : ExtractEnv) (off : ℕ) :
    ∀ (i : ℕ) (l : List Scene),
      (extractFrom env off i l).Pairwise (fun a b => a.ordinal < b.ordinal) := by
  intro i l
  induction l generalizing i with
  | nil => simp [extractFrom]
  | cons s rest ih =>
    rw [extractFrom]
    cases h : processScene env off i s with
    | some e0 =>
      refine List.Pairwise.cons ?_ (ih (i + 1))
      intro b hb
      have hb' := (extractFrom_ordinal_bounds env off (i + 1) rest b hb).1
      have := processScene_ordinal h
      omega
    | none => exact ih (i + 1)

/-- Claim C3: for every scene list with `N ≥ 0` scenes, `extract_snapshots`
emits at most `N` events (each scene contributing zero or one); every
event's 1-based ordinal (the number encoded in its filename) lies in
`[1, N]`; and ordinals appear in strictly increasing order (hence each is
unique). -/
theorem c3_extract_ordinals (env : ExtractEnv) (off : ℕ) (scenes : List Scene) :
    (extract_snapshots env off scenes).length ≤ scenes.length ∧
    (∀ e ∈ extract_snapshots env off scenes,
      1 ≤ e.ordinal ∧ e.ordinal ≤ scenes.length ∧
      snapshotFilename e
        = toString e.ordinal ++ (if e.fallback then "_fallback.jpg" else ".jpg")) ∧
    (extract_snapshots env off scenes).Pairwise (fun a b => a.ordinal < b.ordinal) := by
  unfold extract_snapshots
  split_ifs with hsplit
  · simp
  · refine ⟨extractFrom_length env off 0 scenes, fun e he => ?_,
      extractFrom_pairwise env off 0 scenes⟩
    have := extractFrom_ordinal_bounds env off 0 scenes e he
    exact ⟨by omega, by omega, rfl⟩

/-- Witness for C3: a concrete three-scene run in which scene 2's frame
fails to decode even at the fallback position, so only ordinals 1 and 3
are emitted, in increasing order. -/
theorem c3_extract_ordinals_witness :
    (extract_snapshots
        ⟨fun t => decide (t ≠ 105) && decide (t ≠ 104), fun _ => true, fun _ => false⟩
        5 [⟨0, 100⟩, ⟨100, 200⟩, ⟨200, 300⟩]).length ≤ 3 ∧
    (∀ e ∈ extract_snapshots
        ⟨fun t => decide (t ≠ 105) && decide (t ≠ 104), fun _ => true, fun _ => false⟩
        5 [⟨0, 100⟩, ⟨100, 200⟩, ⟨200, 300⟩],
      1 ≤ e.ordinal ∧ e.ordinal ≤ 3 ∧
      snapshotFilename e
        = toString e.ordinal ++ (if e.fallback then "_fallback.jpg" else ".jpg")) ∧
    (extract_snapshots
        ⟨fun t => decide (t ≠ 105) && decide (t ≠ 104), fun _ => true, fun _ => false⟩
        5 [⟨0, 100⟩, ⟨100, 200⟩, ⟨200, 300⟩]).Pairwise
      (fun a b => a.ordinal < b.ordinal) := by
  have h := c3_extract_ordinals
    ⟨fun t => decide (t ≠ 105) && decide (t ≠ 104), fun _ => true, fun _ => false⟩
    5 [⟨0, 100⟩, ⟨100, 200⟩, ⟨200, 300⟩]
  simpa using h

/-! ### Claim C10: fallback events keep the intended capture time -/

/-- The combined-timeline timestamp of a snapshot event
(main.py line 133: `snap_time.get_seconds()`). -/
def snapshotTimestampSeconds (fps : ℚ) (e : SnapEvent) : ℚ :=
  framesToSeconds e.time fps

/-- Claim C10: when the decode at the chosen capture time fails and the
one-frame-earlier retry succeeds, the emitted event records the originally
chosen capture time — not the position `t - 1` that was actually decoded;
only the filename carries the `_fallback` suffix, and the timeline
timestamp derived from the event uses the intended (unshifted) time. -/
theorem c10_fallback_records_intended_time (env : ExtractEnv) (off i : ℕ)
    (s : Scene) (e : SnapEvent) (fps : ℚ)
    (h : processScene env off i s = some e) (hfb : e.fallback = true) :
    e.time = snapshot_time_for off s ∧
    env.read (snapshot_time_for off s) = false ∧
    0 < snapshot_time_for off s ∧
    env.read (snapshot_time_for off s - 1) = true ∧
    e.time ≠ snapshot_time_for off s - 1 ∧
    snapshotFilename e = toString (i + 1) ++ "_fallback.jpg" ∧
    snapshotTimestampSeconds fps e = framesToSeconds (snapshot_time_for off s) fps := by
  unfold processScene at h
  split_ifs at h with hraise hread hwrite hpos hread2 hwrite2
  all_goals try cases h
  · simp_all
  · refine ⟨rfl, by simpa using hread, hpos, by simpa using hread2, ?_,
      by simp [snapshotFilename], rfl⟩
    show snapshot_time_for off s ≠ snapshot_time_for off s - 1
    omega

/-- Witness for C10: scene frames [0, 100) with an offset of 5 frames; the
decode fails at frame 5 and succeeds at frame 4, the event still records
frame 5 and the filename is `1_fallback.jpg`. -/
theorem c10_fallback_records_intended_time_witness :
    processScene ⟨fun t => decide (t ≠ 5), fun _ => true, fun _ => false⟩ 5 0 ⟨0, 100⟩
        = some ⟨1, 5, true⟩ ∧
    (⟨1, 5, true⟩ : SnapEvent).fallback = true ∧
    ((⟨1, 5, true⟩ : SnapEvent).time = snapshot_time_for 5 ⟨0, 100⟩ ∧
      snapshotFilename ⟨1, 5, true⟩ = toString (0 + 1) ++ "_fallback.jpg") := by
  have h : processScene ⟨fun t => decide (t ≠ 5), fun _ => true, fun _ => false⟩ 5 0 ⟨0, 100⟩
      = some ⟨1, 5, true⟩ := by decide
  have main := c10_fallback_records_intended_time
    ⟨fun t => decide (t ≠ 5), fun _ => true, fun _ => false⟩ 5 0 ⟨0, 100⟩ ⟨1, 5, true⟩ 25 h rfl
  exact ⟨h, rfl, main.1, main.2.2.2.2.2.1⟩

/-! ### Timeline events and the merge (`process_video`, main.py lines 127-217)

`combined_events` is a Python list to which all snapshot events are
appended first (lines 130-135) and transcript events after (line 206),
then sorted in place by `item['timestamp']` with Python's `list.sort`,
which is a stable sort (line 217).  A stable sort is modelled below by
insertion that places each element after all already-placed elements with
a less-or-equal key, processing the input left to right. -/

/-- The tag `event['type']` of a combined-timeline event. -/
inductive EType where
  | snapshot
  | transcript
  deriving DecidableEq, Repr

/-- One entry of `combined_events`: the tag, the sort key
`event['timestamp']` (seconds), the payload `event['data']` (filename or
text), the optional `event['audio_file']` and, for transcripts, the
segment's `event['end_time']`. -/
structure Event where
  etype : EType
  timestamp : ℚ
  data : String
  audioFile : Option String := none
  endTime : Option ℚ := none
  deriving DecidableEq, Repr

/-- Insert an event into an already-sorted list, after every element whose
timestamp is less or equal: the insertion position a stable sort gives an
element arriving after the ones already placed. -/
def insertEv (a : Event) : List Event → List Event
  | [] => [a]
  | b :: l => if b.timestamp ≤ a.timestamp then b :: insertEv a l else a :: b :: l

/-- Embeds `combined_events.sort(key=lambda item: item['timestamp'])`: a stable
sort by timestamp, as left-to-right stable insertion. -/
def sortEvents (l : List Event) : List Event :=
  l.foldl (fun acc a => insertEv a acc) []

/-- Rank used only to state tie-breaking: snapshots before transcripts. -/
def erank : EType → ℕ
  | .snapshot => 0
  | .transcript => 1

/-- Order by timestamp with the snapshot-first tie-break. -/
def lexLe (a b : Event) : Prop :=
  a.timestamp < b.timestamp ∨ (a.timestamp = b.timestamp ∧ erank a.etype ≤ erank b.etype)

theorem erank_le_one (t : EType) : erank t ≤ 1 := by
  cases t <;> simp [erank]

theorem mem_insertEv {x a : Event} : ∀ {l : List Event},
    x ∈ insertEv a l ↔ x = a ∨ x ∈ l := by
  intro l
  induction l with
  | nil => simp [insertEv]
  | cons b l ih =>
    rw [insertEv]
    split_ifs with hb
    · simp only [List.mem_cons, ih]
      tauto
    · simp only [List.mem_cons]

theorem length_insertEv (a : Event) : ∀ (l : List Event),
    (insertEv a l).length = l.length + 1 := by
  intro l
  induction l with
  | nil => rfl
  | cons b l ih =>
    rw [insertEv]
    split_ifs with hb
    · simp [ih]
    · simp

/-- Inserting an element whose rank dominates every already-present element
with the same timestamp preserves sortedness with the tie-break order. -/
theorem insertEv_pairwise {a : Event} : ∀ {l : List Event},
    l.Pairwise lexLe →
    (∀ b ∈ l, b.timestamp = a.timestamp → erank b.etype ≤ erank a.etype) →
    (insertEv a l).Pairwise lexLe := by
  intro l
  induction l with
  | nil =>
    intro _ _
    simp [insertEv]
  | cons b l ih =>
    intro hp hrank
    rw [insertEv]
    rcases List.pairwise_cons.mp hp with ⟨hb, hl⟩
    split_ifs with hble
    · refine List.pairwise_cons.mpr ⟨?_, ih hl (fun c hc hts => hrank c (by simp [hc]) hts)⟩
      intro c hc
      rcases mem_insertEv.mp hc with rfl | hc
      · rcases lt_or_eq_of_le hble with hlt | heq
        · exact Or.inl hlt
        · exact Or.inr ⟨heq, hrank b (by simp) heq⟩
      · exact hb c hc
    · refine List.pairwise_cons.mpr ⟨?_, hp⟩
      intro c hc
      have hab : a.timestamp < b.timestamp := lt_of_not_le hble
      rcases List.mem_cons.mp hc with rfl | hc
      · exact Or.inl hab
      · have := hb c hc
        rcases this with hlt | ⟨heq, _⟩
        · exact Or.inl (hab.trans hlt)
        · exact Or.inl (heq ▸ hab)

theorem length_foldl_insert : ∀ (l acc : List Event),
    (l.foldl (fun acc a => insertEv a acc) acc).length = acc.length + l.length := by
  intro l
  induction l with
  | nil => simp
  | cons a l ih =>
    intro acc
    simp only [List.foldl_cons, ih, length_insertEv, List.length_cons]
    omega

theorem mem_foldl_insert {x : Event} : ∀ {l acc : List Event},
    x ∈ l.foldl (fun acc a => insertEv a acc) acc ↔ x ∈ acc ∨ x ∈ l := by
  intro l
  induction l with
  | nil => simp
  | cons a l ih =>
    intro acc
    simp only [List.foldl_cons, ih, mem_insertEv, List.mem_cons]
    tauto

/-- Folding transcript events (or events of any rank) into a sorted
accumulator keeps it sorted with the tie-break order, provided the
accumulator never out-ranks an incoming equal-timestamp event; inserting
only maximal-rank events needs no side condition. -/
theorem foldl_insert_pairwise_transcripts : ∀ {l acc : List Event},
    (∀ e ∈ l, e.etype = .transcript) →
    acc.Pairwise lexLe →
    (l.foldl (fun acc a => insertEv a acc) acc).Pairwise lexLe := by
  intro l
  induction l with
  | nil =>
    intro acc _ hacc
    simpa using hacc
  | cons a l ih =>
    intro acc hl hacc
    simp only [List.foldl_cons]
    refine ih (fun e he => hl e (by simp [he])) ?_
    refine insertEv_pairwise hacc (fun b _ _ => ?_)
    have ha : a.etype = .transcript := hl a (by simp)
    rw [ha]
    simpa [erank] using erank_le_one b.etype

/-- Folding snapshot events into an all-snapshot sorted accumulator keeps
it an all-snapshot sorted list. -/
theorem foldl_insert_pairwise_snapshots : ∀ {l acc : List Event},
    (∀ e ∈ l, e.etype = .snapshot) →
    (∀ e ∈ acc, e.etype = .snapshot) →
    acc.Pairwise lexLe →
    (∀ e ∈ l.foldl (fun acc a => insertEv a acc) acc, e.etype = .snapshot) ∧
    (l.foldl (fun acc a => insertEv a acc) acc).Pairwise lexLe := by
  intro l
  induction l with
  | nil =>
    intro acc _ hacc hp
    exact ⟨hacc, by simpa using hp⟩
  | cons a l ih =>
    intro acc hl hacc hp
    simp only [List.foldl_cons]
    refine ih (fun e he => hl e (by simp [he])) ?_ ?_
    · intro e he
      rcases mem_insertEv.mp he with rfl | he
      · exact hl e (by simp)
      · exact hacc e he
    · refine insertEv_pairwise hp (fun b hb _ => ?_)
      rw [hacc b hb, hl a (by simp)]

/-- Claim C2: merging `K` snapshot events and `M` transcript events (all
snapshots appended before all transcripts, then a stable sort by
timestamp) yields a sequence of length `K + M` (hence `≤ K + M`) that is
non-decreasing in timestamp, and in which a transcript event never
precedes a snapshot event of exactly equal timestamp — at a timestamp tie
the snapshot comes first. -/
theorem c2_merge_sorted_stable (snaps trans : List Event)
    (hs : ∀ e ∈ snaps, e.etype = .snapshot)
    (ht : ∀ e ∈ trans, e.etype = .transcript) :
    (sortEvents (snaps ++ trans)).length = snaps.length + trans.length ∧
    (sortEvents (snaps ++ trans)).Pairwise
      (fun a b => a.timestamp ≤ b.timestamp) ∧
    (sortEvents (snaps ++ trans)).Pairwise
      (fun a b => a.etype = EType.transcript → b.etype = EType.snapshot →
        a.timestamp ≠ b.timestamp) := by
  have hlen : (sortEvents (snaps ++ trans)).length = snaps.length + trans.length := by
    unfold sortEvents
    rw [length_foldl_insert]
    simp
  have hpair : (sortEvents (snaps ++ trans)).Pairwise lexLe := by
    unfold sortEvents
    rw [List.foldl_append]
    refine foldl_insert_pairwise_transcripts ht ?_
    exact (foldl_insert_pairwise_snapshots hs (by simp) (by simp)).2
  refine ⟨hlen, ?_, ?_⟩
  · refine hpair.imp ?_
    intro a b hab
    rcases hab with hlt | ⟨heq, _⟩
    · exact le_of_lt hlt
    · exact le_of_eq heq
  · refine hpair.imp ?_
    intro a b hab hat hbt heq
    rcases hab with hlt | ⟨_, hrank⟩
    · exact absurd heq (ne_of_lt hlt)
    · rw [hat, hbt] at hrank
      simp [erank] at hrank

/-- Witness for C2: one snapshot and one transcript event with the same
timestamp 1 s merge into a two-element non-decreasing list in which the
transcript does not precede the snapshot. -/
theorem c2_merge_sorted_stable_witness :
    (∀ e ∈ [({ etype := .snapshot, timestamp := 1, data := "1.jpg" } : Event)],
      e.etype = EType.snapshot) ∧
    (∀ e ∈ [({ etype := .transcript, timestamp := 1, data := "hi" } : Event)],
      e.etype = EType.transcript) ∧
    ((sortEvents ([({ etype := .snapshot, timestamp := 1, data := "1.jpg" } : Event)]
          ++ [({ etype := .transcript, timestamp := 1, data := "hi" } : Event)])).length
        = 1 + 1 ∧
      (sortEvents ([({ etype := .snapshot, timestamp := 1, data := "1.jpg" } : Event)]
          ++ [({ etype := .transcript, timestamp := 1, data := "hi" } : Event)])).Pairwise
        (fun a b => a.timestamp ≤ b.timestamp) ∧
      (sortEvents ([({ etype := .snapshot, timestamp := 1, data := "1.jpg" } : Event)]
          ++ [({ etype := .transcript, timestamp := 1, data := "hi" } : Event)])).Pairwise
        (fun a b => a.etype = EType.transcript → b.etype = EType.snapshot →
          a.timestamp ≠ b.timestamp)) :=
  ⟨by simp, by simp,
    c2_merge_sorted_stable
      [{ etype := .snapshot, timestamp := 1, data := "1.jpg" }]
      [{ etype := .transcript, timestamp := 1, data := "hi" }]
      (by simp) (by simp)⟩

/-! ### Transcript segments (`process_video`, main.py lines 176-206)

A transcription segment carries `segment.start`, `segment.end` (seconds)
and `segment.text`.  The loop strips the text, drops blank segments, and
for retained segments optionally asks ffmpeg for the clip
`audio_segments/segment_{int(start*1000)}-{int(end*1000)}.mp3`; on clip
failure the event is still appended, just without `'audio_file'`. -/

/-- One transcription segment (`segment.start`, `segment.end`,
`segment.text`); `end` is a reserved word, hence `stop`. -/
structure Segment where
  start : ℚ
  stop : ℚ
  text : String
  deriving DecidableEq, Repr

/-- Oracles for the per-segment audio extraction: the `--extract-audio`
flag (after the directory was ensured) and the success of
`audio_processor.extract_audio_segment` for a given clip filename. -/
structure TransEnv where
  extract_audio : Bool
  extractOk : String → Bool

/-- Embeds `segment_id = f"segment_{int(segment.start * 1000)}-{int(segment.end * 1000)}"`
(main.py line 190): Python `int()` truncates toward zero. -/
def segment_id (seg : Segment) : String :=
  "segment_" ++ toString (pyInt (seg.start * 1000)) ++ "-"
    ++ toString (pyInt (seg.stop * 1000))

/-- The clip filename `f"{segment_id}.mp3"`. -/
def segmentClipName (seg : Segment) : String :=
  segment_id seg ++ ".mp3"

/-- The relative path stored in the event,
`os.path.join("audio_segments", f"{segment_id}.mp3")`. -/
def segmentClipRelPath (seg : Segment) : String :=
  "audio_segments/" ++ segmentClipName seg

/-- The body of the per-segment loop (main.py lines 177-206): strip the
text, skip the segment if blank; otherwise build the transcript event,
attaching the clip path only when extraction was requested and succeeded. -/
def processSegment (env : TransEnv) (seg : Segment) : Option Event :=
  if pyStrip seg.text = "" then none
  else some
    { etype := .transcript
      timestamp := seg.start
      data := pyStrip seg.text
      audioFile :=
        if env.extract_audio && env.extractOk (segmentClipName seg) then
          some (segmentClipRelPath seg)
        else none
      endTime := some seg.stop }

/-- The transcript events appended to `combined_events`. -/
def buildTranscriptEvents (env : TransEnv) (segments : List Segment) : List Event :=
  segments.filterMap (processSegment env)

/-! ### Transcript SRT (`SRTGenerator.create_transcript_srt`, srt_generator.py lines 48-73) -/

/-- One rendered SRT block: running number, start/end times and the
rendered text line. -/
structure SrtEntry where
  num : ℕ
  startTime : ℚ
  stopTime : ℚ
  text : String
  deriving DecidableEq, Repr

/-- The loop of `create_transcript_srt` with its running `segment_num`:
blank segments are skipped without consuming a number; retained segments
render `text.replace('\n', ' ')` of the stripped text. -/
def create_transcript_srt_entries : ℕ → List Segment → List SrtEntry
  | _, [] => []
  | n, seg :: rest =>
    if pyStrip seg.text = "" then create_transcript_srt_entries n rest
    else ⟨n, seg.start, seg.stop, pyReplaceNL (pyStrip seg.text)⟩
      :: create_transcript_srt_entries (n + 1) rest

/-- Embeds `SRTGenerator.create_transcript_srt`, starting from `segment_num = 1`. -/
def create_transcript_srt (segments : List Segment) : List SrtEntry :=
  create_transcript_srt_entries 1 segments

/-! ### Claim C7 -/

/-- Blank segments are invisible to the SRT generator. -/
theorem create_transcript_srt_entries_filter :
    ∀ (n : ℕ) (segments : List Segment),
      create_transcript_srt_entries n segments
        = create_transcript_srt_entries n
            (segments.filter (fun s => !(pyStrip s.text == ""))) := by
  intro n segments
  induction segments generalizing n with
  | nil => rfl
  | cons seg rest ih =>
    by_cases hb : pyStrip seg.text = ""
    · rw [create_transcript_srt_entries, if_pos hb, List.filter_cons,
        if_neg (by simp [hb])]
      exact ih n
    · rw [create_transcript_srt_entries, if_neg hb, List.filter_cons,
        if_pos (by simp [hb]), create_transcript_srt_entries, if_neg hb, ih (n + 1)]

/-- Every rendered SRT entry comes from a non-blank segment and carries
its stripped, newline-flattened text and its own times. -/
theorem create_transcript_srt_entries_text :
    ∀ (n : ℕ) (segments : List Segment) (e : SrtEntry),
      e ∈ create_transcript_srt_entries n segments →
      ∃ seg ∈ segments, pyStrip seg.text ≠ "" ∧
        e.text = pyReplaceNL (pyStrip seg.text) ∧
        e.startTime = seg.start ∧ e.stopTime = seg.stop := by
  intro n segments
  induction segments generalizing n with
  | nil => simp [create_transcript_srt_entries]
  | cons seg rest ih =>
    intro e he
    rw [create_transcript_srt_entries] at he
    split_ifs at he with hb
    · rcases ih n e he with ⟨s0, hs0, hprops⟩
      exact ⟨s0, by simp [hs0], hprops⟩
    · rcases List.mem_cons.mp he with rfl | he
      · exact ⟨seg, by simp, hb, rfl, rfl, rfl⟩
      · rcases ih (n + 1) e he with ⟨s0, hs0, hprops⟩
        exact ⟨s0, by simp [hs0], hprops⟩

/-- Claim C7: a segment whose text is empty or whitespace-only after
trimming is dropped before merging (no combined-timeline event) and before
SRT generation (no SRT block, and removing such segments does not change
the SRT output at all); a retained segment's rendered text is the trimmed
text with internal newlines replaced by spaces, so `"  hello\nworld "`
yields `"hello world"`. -/
theorem c7_transcript_text_policy :
    (∀ (env : TransEnv) (seg : Segment), pyStrip seg.text = "" →
      processSegment env seg = none) ∧
    (∀ (n : ℕ) (segments : List Segment),
      create_transcript_srt_entries n segments
        = create_transcript_srt_entries n
            (segments.filter (fun s => !(pyStrip s.text == "")))) ∧
    (∀ (n : ℕ) (segments : List Segment) (e : SrtEntry),
      e ∈ create_transcript_srt_entries n segments →
      ∃ seg ∈ segments, pyStrip seg.text ≠ "" ∧
        e.text = pyReplaceNL (pyStrip seg.text) ∧
        e.startTime = seg.start ∧ e.stopTime = seg.stop) ∧
    pyReplaceNL (pyStrip "  hello\nworld ") = "hello world" ∧
    create_transcript_srt [⟨0, 1, "  hello\nworld "⟩] = [⟨1, 0, 1, "hello world"⟩] := by
  refine ⟨?_, create_transcript_srt_entries_filter,
    create_transcript_srt_entries_text, by decide, by decide⟩
  intro env seg hb
  unfold processSegment
  rw [if_pos hb]

/-- Witness for C7: a whitespace-only segment produces no timeline event,
and the example text renders as `"hello world"`. -/
theorem c7_transcript_text_policy_witness :
    pyStrip "  \n " = "" ∧
    processSegment ⟨false, fun _ => false⟩ ⟨0, 1, "  \n "⟩ = none ∧
    pyReplaceNL (pyStrip "  hello\nworld ") = "hello world" :=
  ⟨by decide,
    c7_transcript_text_policy.1 ⟨false, fun _ => false⟩ ⟨0, 1, "  \n "⟩ (by decide),
    c7_transcript_text_policy.2.2.2.1⟩

/-! ### Claim C5 -/

/-- Counterexample to C5 as stated: the clip name is built with Python
`int()`, which truncates — it is not the millisecond-rounded name.  For a
segment `[0 s, 0.0006 s)` the code produces `segment_0-0.mp3`, while the
millisecond-rounded end time is 1 ms, so the rounded name would be
`segment_0-1.mp3`. -/
theorem c5_counterexample :
    segmentClipName ⟨0, 3/5000, "hi"⟩ = "segment_0-0.mp3" ∧
    round (((3 : ℚ)/5000) * 1000) = 1 ∧
    segmentClipName ⟨0, 3/5000, "hi"⟩
      ≠ "segment_" ++ toString (round ((0 : ℚ) * 1000)) ++ "-"
          ++ toString (round (((3 : ℚ)/5000) * 1000)) ++ ".mp3" := by
  have h0 : pyInt ((0 : ℚ) * 1000) = 0 := by unfold pyInt; norm_num
  have h1 : pyInt (((3 : ℚ)/5000) * 1000) = 0 := by
    unfold pyInt
    rw [if_pos (by norm_num)]
    norm_num
  have hname : segmentClipName ⟨0, 3/5000, "hi"⟩ = "segment_0-0.mp3" := by
    show "segment_" ++ toString (pyInt ((0 : ℚ) * 1000)) ++ "-"
        ++ toString (pyInt (((3 : ℚ)/5000) * 1000)) ++ ".mp3" = _
    rw [h0, h1]
    decide
  have hr0 : round ((0 : ℚ) * 1000) = 0 := by norm_num
  have hr1 : round (((3 : ℚ)/5000) * 1000) = 1 := by
    rw [show ((3 : ℚ)/5000) * 1000 = 3/5 by norm_num, round_eq]
    norm_num
  refine ⟨hname, hr1, ?_⟩
  rw [hname, hr0, hr1]
  decide

/-- Claim C5 (amended: millisecond-truncated, not millisecond-rounded):
when per-segment audio extraction is enabled, every transcript segment
with non-empty stripped text requests a clip named
`segment_{⌊start·1000⌋}-{⌊end·1000⌋}.mp3` (truncation = floor for the
non-negative times of a media file); if extraction of the clip fails the
segment is still included in the timeline without an audio reference, and
the loop body never aborts. -/
theorem c5_segment_clip_policy (env : TransEnv) (seg : Segment)
    (htext : pyStrip seg.text ≠ "") (hst : 0 ≤ seg.start) (hen : 0 ≤ seg.stop) :
    segmentClipName seg
      = "segment_" ++ toString ⌊seg.start * 1000⌋ ++ "-"
          ++ toString ⌊seg.stop * 1000⌋ ++ ".mp3" ∧
    processSegment env seg = some
      { etype := .transcript
        timestamp := seg.start
        data := pyStrip seg.text
        audioFile :=
          if env.extract_audio && env.extractOk (segmentClipName seg) then
            some (segmentClipRelPath seg)
          else none
        endTime := some seg.stop } ∧
    (env.extractOk (segmentClipName seg) = false →
      ∀ e : Event, processSegment env seg = some e → e.audioFile = none) := by
  refine ⟨?_, ?_, ?_⟩
  · unfold segmentClipName segment_id pyInt
    rw [if_pos (by positivity), if_pos (by positivity)]
  · unfold processSegment
    rw [if_neg htext]
  · intro hfail e he
    unfold processSegment at he
    rw [if_neg htext] at he
    cases he
    simp [hfail]

/-- Witness for C5: a retained segment `[1 s, 2.5 s)` with extraction
enabled but failing for its clip still yields an event without an audio
reference, and the clip name uses the truncated milliseconds 1000 and 2500. -/
theorem c5_segment_clip_policy_witness :
    pyStrip "hi" ≠ "" ∧ (0 : ℚ) ≤ 1 ∧ (0 : ℚ) ≤ 5/2 ∧
    (segmentClipName ⟨1, 5/2, "hi"⟩
        = "segment_" ++ toString ⌊(1 : ℚ) * 1000⌋ ++ "-"
            ++ toString ⌊((5 : ℚ)/2) * 1000⌋ ++ ".mp3" ∧
      ((fun (env : TransEnv) => env.extractOk (segmentClipName ⟨1, 5/2, "hi"⟩) = false →
          ∀ e : Event, processSegment env ⟨1, 5/2, "hi"⟩ = some e → e.audioFile = none)
        ⟨true, fun _ => false⟩)) :=
  ⟨by decide, by norm_num, by norm_num,
    (c5_segment_clip_policy ⟨true, fun _ => false⟩ ⟨1, 5/2, "hi"⟩
      (by decide) (by norm_num) (by norm_num)).1,
    (c5_segment_clip_policy ⟨true, fun _ => false⟩ ⟨1, 5/2, "hi"⟩
      (by decide) (by norm_num) (by norm_num)).2.2⟩

/-! ### Scene detection and the transcription-disabled run (claim C4)

`VideoProcessor.detect_scenes` (video_processor.py lines 34-63) returns
`[]` in three situations: the video file does not exist, the detector
raised an exception (caught, logged as an error), or detection succeeded
but found no scene changes (logged as a warning).  The caller receives the
same empty list in all three cases. -/

/-- Environment of `detect_scenes`: whether the video file exists and what
the external detector does (a scene list, or a raised exception). -/
structure DetectEnv where
  fileExists : Bool
  detection : Except String (List Scene)

/-- Embeds `VideoProcessor.detect_scenes`. -/
def detect_scenes (env : DetectEnv) : List Scene :=
  if !env.fileExists then []
  else
    match env.detection with
    | .ok l => l
    | .error _ => []

/-- A snapshot event as appended to `combined_events`
(main.py lines 130-135). -/
def toSnapshotEvent (fps : ℚ) (e : SnapEvent) : Event :=
  { etype := .snapshot
    timestamp := snapshotTimestampSeconds fps e
    data := snapshotFilename e }

/-- The externally observable outcome of one run. -/
structure RunOutput where
  snapshotFiles : List String
  snapshotSrtCreated : Bool
  transcriptSrtCreated : Bool
  reportCreated : Bool
  exitCode : ℕ
  deriving DecidableEq, Repr

/-- Embeds `process_video` with `--transcribe` off, composed with `main`'s
translation of the boolean result into an exit code (main.py lines 60-135,
214-230, 241-269): check the file, detect scenes, treat an empty scene
list as "no snapshots" (warning only), extract snapshots otherwise, write
the snapshot SRT only when there are snapshot tuples, build
`combined_events` from the snapshots alone, and write the report only when
`combined_events` is non-empty; the function then returns `True`, so the
process exits 0. -/
def process_video_noTranscribe (denv : DetectEnv) (xenv : ExtractEnv)
    (off : ℕ) (fps : ℚ) : RunOutput :=
  if !denv.fileExists then
    { snapshotFiles := [], snapshotSrtCreated := false,
      transcriptSrtCreated := false, reportCreated := false, exitCode := 1 }
  else
    let scene_list := detect_scenes denv
    let snapshot_details :=
      if scene_list.isEmpty then [] else extract_snapshots xenv off scene_list
    let combined_events := (snapshot_details.map (toSnapshotEvent fps))
    { snapshotFiles := snapshot_details.map snapshotFilename
      snapshotSrtCreated := !snapshot_details.isEmpty
      transcriptSrtCreated := false
      reportCreated := !combined_events.isEmpty
      exitCode := 0 }

/-- Counterexample to the last part of C4 as stated: the "no scene
changes" outcome is NOT distinguishable by the caller from a
scene-detection failure.  `detect_scenes` returns the same empty list
whether the detector found nothing or raised, and the whole
transcription-disabled run then produces identical observable outputs
(no files, no report, exit 0) in both cases; the two differ only in what
is logged. -/
theorem c4_counterexample :
    detect_scenes ⟨true, .ok []⟩ = detect_scenes ⟨true, .error "detector raised"⟩ ∧
    process_video_noTranscribe ⟨true, .ok []⟩
        ⟨fun _ => true, fun _ => true, fun _ => false⟩ 12 25
      = process_video_noTranscribe ⟨true, .error "detector raised"⟩
        ⟨fun _ => true, fun _ => true, fun _ => false⟩ 12 25 := by
  constructor
  · rfl
  · rfl

/-- Claim C4 (amended: without caller-side distinguishability): a run on
an existing video with an empty scene list and transcription disabled
produces no snapshot files, no snapshot SRT, no transcript SRT, no report,
and exits 0; a run whose scene detection raises produces exactly the same
outcome (so the two are not an error, but also not distinguishable by the
caller). -/
theorem c4_empty_scene_run (xenv : ExtractEnv) (off : ℕ) (fps : ℚ) (msg : String) :
    process_video_noTranscribe ⟨true, .ok []⟩ xenv off fps
      = { snapshotFiles := [], snapshotSrtCreated := false,
          transcriptSrtCreated := false, reportCreated := false, exitCode := 0 } ∧
    process_video_noTranscribe ⟨true, .error msg⟩ xenv off fps
      = { snapshotFiles := [], snapshotSrtCreated := false,
          transcriptSrtCreated := false, reportCreated := false, exitCode := 0 } := by
  constructor
  · rfl
  · rfl

/-- Witness for C4: the amended statement at a concrete extraction
environment, offset 12 frames, 25 fps. -/
theorem c4_empty_scene_run_witness :
    process_video_noTranscribe ⟨true, .ok []⟩
        ⟨fun _ => true, fun _ => true, fun _ => false⟩ 12 25
      = { snapshotFiles := [], snapshotSrtCreated := false,
          transcriptSrtCreated := false, reportCreated := false, exitCode := 0 } ∧
    process_video_noTranscribe ⟨true, .error "detector raised"⟩
        ⟨fun _ => true, fun _ => true, fun _ => false⟩ 12 25
      = { snapshotFiles := [], snapshotSrtCreated := false,
          transcriptSrtCreated := false, reportCreated := false, exitCode := 0 } :=
  c4_empty_scene_run ⟨fun _ => true, fun _ => true, fun _ => false⟩ 12 25
    "detector raised"

/-! ### Temporary audio file cleanup (claim C6)

`process_video` (main.py lines 144-239) creates the temporary audio file
inside `AudioProcessor.extract_audio` (audio_processor.py lines 29-52,
via `create_temp_audio_file`), and removes it at lines 232-234
(`if temp_audio_file: safe_remove_file(temp_audio_file)`), which is plain
straight-line code at the end of the function — there is no `try/finally`.
`main` (lines 250-269) catches `KeyboardInterrupt` and other exceptions
but performs no cleanup.  -/

/-- Embeds `fs_utils.safe_remove_file`: `True` when the file does not exist,
otherwise the success of `os.remove`. -/
def safe_remove_file (fileOnDisk removeOk : Bool) : Bool :=
  if !fileOnDisk then true else removeOk

/-- Environment of `AudioProcessor.extract_audio`: ffmpeg availability and
whether the full-video audio extraction succeeds. -/
structure AudioEnv where
  ffmpegAvailable : Bool
  ffmpegExtractOk : Bool

/-- Embeds `AudioProcessor.extract_audio` for the temp-file case: the first
component is the temp file that now exists on disk (created by
`create_temp_audio_file` before ffmpeg runs), the second is the returned
path — `None` when ffmpeg fails, even though the file was created. -/
def extract_audio (env : AudioEnv) : Option String × Option String :=
  if !env.ffmpegAvailable then (none, none)
  else if env.ffmpegExtractOk then (some "temp.wav", some "temp.wav")
  else (some "temp.wav", none)

/-- The points after `extract_audio` at which an exception or a
`KeyboardInterrupt` can leave `process_video` before the cleanup line. -/
inductive RunStage where
  | transcription
  | srtWrite
  | reportGen
  deriving DecidableEq, Repr

/-- Environment of a `--transcribe` run for the cleanup question. -/
structure C6Env where
  audio : AudioEnv
  raiseAt : Option RunStage

/-- What happened to the temporary audio file when the run ended. -/
structure CleanupOutcome where
  tempCreated : Bool
  tempRemoved : Bool
  exitCode : ℕ
  deriving DecidableEq, Repr

/-- The cleanup-relevant tail of a `--transcribe` run of `process_video`:
when any stage between audio extraction and the cleanup line raises, the
exception propagates to `main`'s handler (exit 1 or 130) and the cleanup
line is never reached; otherwise the cleanup line removes the file exactly
when the *returned* path `temp_audio_file` is not `None`. -/
def process_video_transcribe_tail (env : C6Env) : CleanupOutcome :=
  match extract_audio env.audio with
  | (created, temp_audio_file) =>
    match env.raiseAt with
    | some _ => ⟨created.isSome, false, 1⟩
    | none => ⟨created.isSome, temp_audio_file.isSome, 0⟩

/-- Claim C6 is right about the intent and the code is wrong: the
temporary audio file is NOT deleted on every path.  (1) When ffmpeg's
full-audio extraction fails, the temp file was created but
`extract_audio` returns `None`, so the cleanup line skips it and the run
still exits 0 with the file left behind.  (2) When any stage after audio
extraction raises (including `KeyboardInterrupt`), the cleanup line —
which is not inside a `finally` block — is never executed.  (3) Only the
fully successful path removes the file. -/
theorem c6_temp_file_leak :
    ((process_video_transcribe_tail ⟨⟨true, false⟩, none⟩).tempCreated = true ∧
      (process_video_transcribe_tail ⟨⟨true, false⟩, none⟩).tempRemoved = false ∧
      (process_video_transcribe_tail ⟨⟨true, false⟩, none⟩).exitCode = 0) ∧
    ((process_video_transcribe_tail ⟨⟨true, true⟩, some .reportGen⟩).tempCreated = true ∧
      (process_video_transcribe_tail ⟨⟨true, true⟩, some .reportGen⟩).tempRemoved = false) ∧
    (process_video_transcribe_tail ⟨⟨true, true⟩, none⟩).tempRemoved = true := by
  decide

/-! ### Unique output directory (claim C8, `fs_utils.get_unique_output_dir`) -/

/-- Embeds `os.path.join` on POSIX for plain relative components. -/
def pathJoin (a b : String) : String :=
  a ++ "/" ++ b

/-- The k-th candidate the `while` loop of `get_unique_output_dir` tests:
`base/name` first, then `base/name (1)`, `base/name (2)`, … -/
def candidate (base name : String) : ℕ → String
  | 0 => pathJoin base name
  | Nat.succ k => pathJoin base (name ++ " (" ++ toString (k + 1) ++ ")")

/-- Embeds `fs_utils.get_unique_output_dir` (fs_utils.py lines 11-30): the loop
keeps incrementing the counter while `os.path.isdir` holds of the current
candidate, so it returns the first candidate that is not an existing
directory.  Termination of the `while` loop is the hypothesis that some
candidate is free. -/
def get_unique_output_dir (isdir : String → Bool) (base name : String)
    (h : ∃ k, isdir (candidate base name k) = false) : String :=
  candidate base name (Nat.find h)

/-- Claim C8: the returned path is not an existing directory (a prior
run's directory is never overwritten), it is the first free candidate
(every earlier candidate is an existing directory), and when `base/name`
itself is free it is returned unchanged. -/
theorem c8_unique_output_dir (isdir : String → Bool) (base name : String)
    (h : ∃ k, isdir (candidate base name k) = false) :
    isdir (get_unique_output_dir isdir base name h) = false ∧
    get_unique_output_dir isdir base name h = candidate base name (Nat.find h) ∧
    (∀ j < Nat.find h, isdir (candidate base name j) = true) ∧
    (isdir (pathJoin base name) = false →
      get_unique_output_dir isdir base name h = pathJoin base name) := by
  refine ⟨Nat.find_spec h, rfl, ?_, ?_⟩
  · intro j hj
    have := Nat.find_min h hj
    simpa using this
  · intro h0
    have : Nat.find h = 0 := (Nat.find_eq_zero h).mpr h0
    rw [get_unique_output_dir, this]
    rfl

/-- The concrete filesystem of the spec scenario: only `out/movie` exists
as a directory. -/
def isdirMovie : String → Bool :=
  fun s => s == "out/movie"

/-- In that filesystem some candidate is free. -/
theorem isdirMovie_free : ∃ k, isdirMovie (candidate "out" "movie" k) = false :=
  ⟨1, by decide⟩

/-- Witness for C8, the spec scenario: `out/movie` already exists, so the
run writes to `out/movie (1)`. -/
theorem c8_unique_output_dir_witness :
    (∃ k, isdirMovie (candidate "out" "movie" k) = false) ∧
    isdirMovie (get_unique_output_dir isdirMovie "out" "movie" isdirMovie_free) = false ∧
    get_unique_output_dir isdirMovie "out" "movie" isdirMovie_free = "out/movie (1)" := by
  refine ⟨isdirMovie_free,
    (c8_unique_output_dir isdirMovie "out" "movie" isdirMovie_free).1, ?_⟩
  have hfind : Nat.find isdirMovie_free = 1 := by
    rw [Nat.find_eq_iff]
    refine ⟨by decide, ?_⟩
    intro n hn
    interval_cases n
    decide
  rw [get_unique_output_dir, hfind]
  decide

/-! ### SRT time formatting (claim C9, `time_utils.format_srt_time`)

`format_srt_time(time_sec)` builds `datetime.timedelta(seconds=time_sec)`
— which stores the duration at microsecond resolution, rounding the
fractional part with Python `round` semantics — then chains
`divmod(total_seconds, 3600)` and `divmod(remainder, 60)` (floor division)
and takes `int(delta.microseconds / 1000)`, rendering each piece
zero-padded (`:02`, `:03`) with a comma before the milliseconds. -/

/-- The duration in whole microseconds stored by
`datetime.timedelta(seconds=t)`. -/
def srtTotalMicro (t : ℚ) : ℤ :=
  pyRound (t * 1000000)

/-- The value `delta.total_seconds()`. -/
def srtTotalSeconds (t : ℚ) : ℚ :=
  (srtTotalMicro t : ℚ) / 1000000

/-- The `hours` from `divmod(delta.total_seconds(), 3600)`. -/
def srtHours (t : ℚ) : ℤ :=
  ⌊srtTotalSeconds t / 3600⌋

/-- The `remainder` from the first `divmod`. -/
def srtRemainder (t : ℚ) : ℚ :=
  srtTotalSeconds t - 3600 * (srtHours t : ℚ)

/-- The `minutes` from `divmod(remainder, 60)`. -/
def srtMinutes (t : ℚ) : ℤ :=
  ⌊srtRemainder t / 60⌋

/-- The `seconds` from the second `divmod` (still fractional). -/
def srtSeconds (t : ℚ) : ℚ :=
  srtRemainder t - 60 * (srtMinutes t : ℚ)

/-- The value `int(delta.microseconds / 1000)`: the microsecond component of the
normalized timedelta (non-negative, below 10^6), floor-divided by 1000. -/
def srtMilliseconds (t : ℚ) : ℤ :=
  Int.ediv (Int.emod (srtTotalMicro t) 1000000) 1000

/-- Python `f"{n:02}"` for a non-negative value. -/
def pad2 (n : ℕ) : String :=
  if n < 10 then "0" ++ toString n else toString n

/-- Python `f"{n:03}"` for a non-negative value. -/
def pad3 (n : ℕ) : String :=
  if n < 10 then "00" ++ toString n
  else if n < 100 then "0" ++ toString n
  else toString n

/-- Embeds `time_utils.format_srt_time`. -/
def format_srt_time (t : ℚ) : String :=
  pad2 (srtHours t).toNat ++ ":" ++ pad2 (srtMinutes t).toNat ++ ":"
    ++ pad2 (pyInt (srtSeconds t)).toNat ++ "," ++ pad3 (srtMilliseconds t).toNat

theorem srtRemainder_nonneg (t : ℚ) : 0 ≤ srtRemainder t := by
  unfold srtRemainder srtHours
  have h1 := Int.floor_le (srtTotalSeconds t / 3600)
  have hx : srtTotalSeconds t / 3600 * 3600 = srtTotalSeconds t := by ring
  nlinarith

theorem srtRemainder_lt (t : ℚ) : srtRemainder t < 3600 := by
  unfold srtRemainder srtHours
  have h2 := Int.lt_floor_add_one (srtTotalSeconds t / 3600)
  have hx : srtTotalSeconds t / 3600 * 3600 = srtTotalSeconds t := by ring
  nlinarith

theorem srtMinutes_nonneg (t : ℚ) : 0 ≤ srtMinutes t := by
  unfold srtMinutes
  exact Int.floor_nonneg.mpr (div_nonneg (srtRemainder_nonneg t) (by norm_num))

theorem srtMinutes_lt (t : ℚ) : srtMinutes t < 60 := by
  unfold srtMinutes
  refine Int.floor_lt.mpr ?_
  push_cast
  rw [div_lt_iff₀ (by norm_num)]
  have := srtRemainder_lt t
  linarith

theorem srtSeconds_nonneg (t : ℚ) : 0 ≤ srtSeconds t := by
  unfold srtSeconds srtMinutes
  have h1 := Int.floor_le (srtRemainder t / 60)
  have hx : srtRemainder t / 60 * 60 = srtRemainder t := by ring
  nlinarith

theorem srtSeconds_lt (t : ℚ) : srtSeconds t < 60 := by
  unfold srtSeconds srtMinutes
  have h2 := Int.lt_floor_add_one (srtRemainder t / 60)
  have hx : srtRemainder t / 60 * 60 = srtRemainder t := by ring
  nlinarith

theorem srtMilliseconds_bounds (t : ℚ) :
    0 ≤ srtMilliseconds t ∧ srtMilliseconds t < 1000 := by
  unfold srtMilliseconds
  have hm0 : 0 ≤ Int.emod (srtTotalMicro t) 1000000 :=
    Int.emod_nonneg _ (by norm_num)
  have hm1 : Int.emod (srtTotalMicro t) 1000000 < 1000000 :=
    Int.emod_lt_of_pos _ (by norm_num)
  constructor
  · exact Int.ediv_nonneg hm0 (by norm_num)
  · have hle : Int.ediv (Int.emod (srtTotalMicro t) 1000000) 1000
        ≤ Int.ediv 999999 1000 :=
      Int.ediv_le_ediv (by norm_num) (by omega)
    have : Int.ediv 999999 1000 = 999 := by decide
    omega

/-- Claim C9: the subtitle-time formatter renders seconds as zero-padded
`HH:MM:SS,mmm` with a comma before the milliseconds; in particular 3725.4
seconds render as `01:02:05,400` and 0.0 as `00:00:00,000`. -/
theorem c9_format_srt_time :
    format_srt_time (37254/10) = "01:02:05,400" ∧
    format_srt_time 0 = "00:00:00,000" ∧
    (∀ t : ℚ, 0 ≤ t → ∃ hh mm ss mmm : ℕ, mm < 60 ∧ ss < 60 ∧ mmm < 1000 ∧
      format_srt_time t
        = pad2 hh ++ ":" ++ pad2 mm ++ ":" ++ pad2 ss ++ "," ++ pad3 mmm) := by
  have e1 : srtTotalMicro (37254/10) = 3725400000 := by
    unfold srtTotalMicro pyRound
    norm_num
  have e2 : srtTotalSeconds (37254/10) = 37254/10 := by
    unfold srtTotalSeconds
    rw [e1]
    norm_num
  have e3 : srtHours (37254/10) = 1 := by
    unfold srtHours
    rw [e2]
    norm_num
  have e4 : srtRemainder (37254/10) = 627/5 := by
    unfold srtRemainder
    rw [e2, e3]
    norm_num
  have e5 : srtMinutes (37254/10) = 2 := by
    unfold srtMinutes
    rw [e4]
    norm_num
  have e6 : srtSeconds (37254/10) = 27/5 := by
    unfold srtSeconds
    rw [e4, e5]
    norm_num
  have e7 : pyInt ((27 : ℚ)/5) = 5 := by
    unfold pyInt
    rw [if_pos (by norm_num)]
    norm_num
  have e8 : srtMilliseconds (37254/10) = 400 := by
    unfold srtMilliseconds
    rw [e1]
    decide
  have z1 : srtTotalMicro 0 = 0 := by
    unfold srtTotalMicro pyRound
    norm_num
  have z2 : srtTotalSeconds 0 = 0 := by
    unfold srtTotalSeconds
    rw [z1]
    norm_num
  have z3 : srtHours 0 = 0 := by
    unfold srtHours
    rw [z2]
    norm_num
  have z4 : srtRemainder 0 = 0 := by
    unfold srtRemainder
    rw [z2, z3]
    norm_num
  have z5 : srtMinutes 0 = 0 := by
    unfold srtMinutes
    rw [z4]
    norm_num
  have z6 : srtSeconds 0 = 0 := by
    unfold srtSeconds
    rw [z4, z5]
    norm_num
  have z7 : pyInt (0 : ℚ) = 0 := by
    unfold pyInt
    norm_num
  have z8 : srtMilliseconds 0 = 0 := by
    unfold srtMilliseconds
    rw [z1]
    decide
  refine ⟨?_, ?_, ?_⟩
  · unfold format_srt_time
    rw [e3, e5, e6, e7, e8]
    decide
  · unfold format_srt_time
    rw [z3, z5, z6, z7, z8]
    decide
  · intro t ht
    refine ⟨(srtHours t).toNat, (srtMinutes t).toNat, (pyInt (srtSeconds t)).toNat,
      (srtMilliseconds t).toNat, ?_, ?_, ?_, rfl⟩
    · have h1 := srtMinutes_nonneg t
      have h2 := srtMinutes_lt t
      omega
    · have hnn := srtSeconds_nonneg t
      have hfl : pyInt (srtSeconds t) = ⌊srtSeconds t⌋ := by
        unfold pyInt
        rw [if_pos hnn]
      have h1 : 0 ≤ ⌊srtSeconds t⌋ := Int.floor_nonneg.mpr hnn
      have h2 : ⌊srtSeconds t⌋ < 60 := by
        refine Int.floor_lt.mpr ?_
        push_cast
        exact srtSeconds_lt t
      rw [hfl]
      omega
    · have := srtMilliseconds_bounds t
      omega

/-- Witness for C9: the shape statement applied at 3725.4 seconds. -/
theorem c9_format_srt_time_witness :
    (0 : ℚ) ≤ 37254/10 ∧
    (∃ hh mm ss mmm : ℕ, mm < 60 ∧ ss < 60 ∧ mmm < 1000 ∧
      format_srt_time (37254/10)
        = pad2 hh ++ ":" ++ pad2 mm ++ ":" ++ pad2 ss ++ "," ++ pad3 mmm) :=
  ⟨by norm_num, c9_format_srt_time.2.2 (37254/10) (by norm_num)⟩

end SnapScript
